import Mathlib

/-
Verification of the heterogeneous tabular field-extraction engine
(src/smart_extractor.py) against its natural-language specification.

The grid is the raw pandas DataFrame read with header=None, with every cell
observed through str(): a blank (NaN) cell reads as the string "nan", which
is exactly how the Python code sees it at every access site.  All string
operations of the source (strip, replace of single characters, substring
containment, find) are modelled on the underlying character lists.
-/

set_option maxRecDepth 8000
set_option exponentiation.threshold 2000

namespace SmartExtractor

/-- A raw spreadsheet grid: rows of stringified cells; a blank cell is "nan". -/
abbrev Grid := List (List String)

/-- An extracted record: an insertion-ordered mapping from canonical field
name to cleaned value, mirroring a Python dict of str to str. -/
abbrev Record := List (String × String)

/-- Python dict read: d.get(k) / d[k]. -/
def dget (r : Record) (k : String) : Option String :=
  (r.find? (fun p => p.1 == k)).map (fun p => p.2)

/-- Python dict write d[k] = v: replace in place if the key exists
(preserving its position), otherwise append. -/
def dset (r : Record) (k v : String) : Record :=
  if (r.find? (fun p => p.1 == k)).isSome then
    r.map (fun p => if p.1 == k then (k, v) else p)
  else
    r ++ [(k, v)]

/-- The maximal code-point ranges on which Python str.isspace is true: the
complete Unicode whitespace set of CPython (ASCII controls and space, NEL,
NBSP, ogham space, the U+2000 block, line and paragraph separators, narrow
and medium spaces, and the ideographic space U+3000).  str.strip with no
argument, float()'s surrounding-whitespace tolerance and the regex \s of
strptime all use this same predicate. -/
def pyWSRanges : List (Nat × Nat) :=
  [(0x9, 0xd), (0x1c, 0x20), (0x85, 0x85), (0xa0, 0xa0), (0x1680, 0x1680),
   (0x2000, 0x200a), (0x2028, 0x2029), (0x202f, 0x202f), (0x205f, 0x205f), (0x3000, 0x3000)]

def pyWS (c : Char) : Bool :=
  pyWSRanges.any (fun r => r.1 ≤ c.toNat && c.toNat ≤ r.2)

/-- Python str.strip(): remove whitespace from both ends. -/
def pyStrip (s : String) : String :=
  String.mk (((s.data.dropWhile pyWS).reverse.dropWhile pyWS).reverse)

/-- The source's s.replace(' ', '').replace('\n', ''): since both patterns
are single characters, Python replace with '' is exactly a filter. -/
def stripSpaceNL (s : String) : String :=
  String.mk (s.data.filter (fun c => !(c == ' ' || c == '\n')))

/-- The source's pattern.replace(' ', ''). -/
def stripSpace (s : String) : String :=
  String.mk (s.data.filter (fun c => !(c == ' ')))

/-- The keyword catalog of extract_fund_data_smart (lines 33-39), in dict
insertion order. -/
def keywords : List (String × List String) :=
  [("产品名称", ["产品名称", "基金名称", "资产名称", "名称", "FundName"]),
   ("产品代码", ["产品代码", "基金代码", "资产代码", "代码", "协会备案编码", "协会备案代码", "FundFillingCode"]),
   ("单位净值", ["单位净值", "基金份额净值", "产品单位净值", "当期净值", "资产净值", "净值", "实际净值", "NAV/Share", "NAVShare"]),
   ("累计单位净值", ["累计单位净值", "基金份额累计净值", "产品累计单位净值", "当期累计净值", "资产净值累计净值", "累计净值", "实际累计净值", "AccumulatedNAV/Share", "AccumulatedNAVShare"]),
   ("净值日期", ["净值日期", "日期", "估值基准日", "NAVAsOfDate"])]

/-- The union of all alias lists (the all_keywords set of line 140-142;
only membership is ever used, so a list is a faithful model of the set). -/
def all_keywords : List String :=
  keywords.foldr (fun fp acc => fp.2 ++ acc) []

/-- First index at which needle occurs in hay: Python str.find, with the
source's preceding membership test `pattern in cell_value` holding exactly
when the result is some index. -/
def strFindAux (needle : List Char) : List Char → Nat → Option Nat
  | [], i => if needle.isEmpty then some i else none
  | c :: cs, i => if needle.isPrefixOf (c :: cs) then some i else strFindAux needle cs (i + 1)

def strFind (hay needle : List Char) : Option Nat :=
  strFindAux needle hay 0

/-- Python substring containment: needle in hay. -/
def isSub (needle hay : List Char) : Bool :=
  (strFind hay needle).isSome

/-- The maximal code-point ranges on which Python str.isalpha is true: the
Unicode Letter categories Lu, Ll, Lt, Lm and Lo, taken from CPython's
Unicode database. -/
def alphaRanges : List (Nat × Nat) :=
  [(0x41, 0x5a), (0x61, 0x7a), (0xaa, 0xaa), (0xb5, 0xb5), (0xba, 0xba),
   (0xc0, 0xd6), (0xd8, 0xf6), (0xf8, 0x2c1), (0x2c6, 0x2d1), (0x2e0, 0x2e4),
   (0x2ec, 0x2ec), (0x2ee, 0x2ee), (0x370, 0x374), (0x376, 0x377), (0x37a, 0x37d),
   (0x37f, 0x37f), (0x386, 0x386), (0x388, 0x38a), (0x38c, 0x38c), (0x38e, 0x3a1),
   (0x3a3, 0x3f5), (0x3f7, 0x481), (0x48a, 0x52f), (0x531, 0x556), (0x559, 0x559),
   (0x560, 0x588), (0x5d0, 0x5ea), (0x5ef, 0x5f2), (0x620, 0x64a), (0x66e, 0x66f),
   (0x671, 0x6d3), (0x6d5, 0x6d5), (0x6e5, 0x6e6), (0x6ee, 0x6ef), (0x6fa, 0x6fc),
   (0x6ff, 0x6ff), (0x710, 0x710), (0x712, 0x72f), (0x74d, 0x7a5), (0x7b1, 0x7b1),
   (0x7ca, 0x7ea), (0x7f4, 0x7f5), (0x7fa, 0x7fa), (0x800, 0x815), (0x81a, 0x81a),
   (0x824, 0x824), (0x828, 0x828), (0x840, 0x858), (0x860, 0x86a), (0x870, 0x887),
   (0x889, 0x88e), (0x8a0, 0x8c9), (0x904, 0x939), (0x93d, 0x93d), (0x950, 0x950),
   (0x958, 0x961), (0x971, 0x980), (0x985, 0x98c), (0x98f, 0x990), (0x993, 0x9a8),
   (0x9aa, 0x9b0), (0x9b2, 0x9b2), (0x9b6, 0x9b9), (0x9bd, 0x9bd), (0x9ce, 0x9ce),
   (0x9dc, 0x9dd), (0x9df, 0x9e1), (0x9f0, 0x9f1), (0x9fc, 0x9fc), (0xa05, 0xa0a),
   (0xa0f, 0xa10), (0xa13, 0xa28), (0xa2a, 0xa30), (0xa32, 0xa33), (0xa35, 0xa36),
   (0xa38, 0xa39), (0xa59, 0xa5c), (0xa5e, 0xa5e), (0xa72, 0xa74), (0xa85, 0xa8d),
   (0xa8f, 0xa91), (0xa93, 0xaa8), (0xaaa, 0xab0), (0xab2, 0xab3), (0xab5, 0xab9),
   (0xabd, 0xabd), (0xad0, 0xad0), (0xae0, 0xae1), (0xaf9, 0xaf9), (0xb05, 0xb0c),
   (0xb0f, 0xb10), (0xb13, 0xb28), (0xb2a, 0xb30), (0xb32, 0xb33), (0xb35, 0xb39),
   (0xb3d, 0xb3d), (0xb5c, 0xb5d), (0xb5f, 0xb61), (0xb71, 0xb71), (0xb83, 0xb83),
   (0xb85, 0xb8a), (0xb8e, 0xb90), (0xb92, 0xb95), (0xb99, 0xb9a), (0xb9c, 0xb9c),
   (0xb9e, 0xb9f), (0xba3, 0xba4), (0xba8, 0xbaa), (0xbae, 0xbb9), (0xbd0, 0xbd0),
   (0xc05, 0xc0c), (0xc0e, 0xc10), (0xc12, 0xc28), (0xc2a, 0xc39), (0xc3d, 0xc3d),
   (0xc58, 0xc5a), (0xc5d, 0xc5d), (0xc60, 0xc61), (0xc80, 0xc80), (0xc85, 0xc8c),
   (0xc8e, 0xc90), (0xc92, 0xca8), (0xcaa, 0xcb3), (0xcb5, 0xcb9), (0xcbd, 0xcbd),
   (0xcdd, 0xcde), (0xce0, 0xce1), (0xcf1, 0xcf2), (0xd04, 0xd0c), (0xd0e, 0xd10),
   (0xd12, 0xd3a), (0xd3d, 0xd3d), (0xd4e, 0xd4e), (0xd54, 0xd56), (0xd5f, 0xd61),
   (0xd7a, 0xd7f), (0xd85, 0xd96), (0xd9a, 0xdb1), (0xdb3, 0xdbb), (0xdbd, 0xdbd),
   (0xdc0, 0xdc6), (0xe01, 0xe30), (0xe32, 0xe33), (0xe40, 0xe46), (0xe81, 0xe82),
   (0xe84, 0xe84), (0xe86, 0xe8a), (0xe8c, 0xea3), (0xea5, 0xea5), (0xea7, 0xeb0),
   (0xeb2, 0xeb3), (0xebd, 0xebd), (0xec0, 0xec4), (0xec6, 0xec6), (0xedc, 0xedf),
   (0xf00, 0xf00), (0xf40, 0xf47), (0xf49, 0xf6c), (0xf88, 0xf8c), (0x1000, 0x102a),
   (0x103f, 0x103f), (0x1050, 0x1055), (0x105a, 0x105d), (0x1061, 0x1061), (0x1065, 0x1066),
   (0x106e, 0x1070), (0x1075, 0x1081), (0x108e, 0x108e), (0x10a0, 0x10c5), (0x10c7, 0x10c7),
   (0x10cd, 0x10cd), (0x10d0, 0x10fa), (0x10fc, 0x1248), (0x124a, 0x124d), (0x1250, 0x1256),
   (0x1258, 0x1258), (0x125a, 0x125d), (0x1260, 0x1288), (0x128a, 0x128d), (0x1290, 0x12b0),
   (0x12b2, 0x12b5), (0x12b8, 0x12be), (0x12c0, 0x12c0), (0x12c2, 0x12c5), (0x12c8, 0x12d6),
   (0x12d8, 0x1310), (0x1312, 0x1315), (0x1318, 0x135a), (0x1380, 0x138f), (0x13a0, 0x13f5),
   (0x13f8, 0x13fd), (0x1401, 0x166c), (0x166f, 0x167f), (0x1681, 0x169a), (0x16a0, 0x16ea),
   (0x16f1, 0x16f8), (0x1700, 0x1711), (0x171f, 0x1731), (0x1740, 0x1751), (0x1760, 0x176c),
   (0x176e, 0x1770), (0x1780, 0x17b3), (0x17d7, 0x17d7), (0x17dc, 0x17dc), (0x1820, 0x1878),
   (0x1880, 0x1884), (0x1887, 0x18a8), (0x18aa, 0x18aa), (0x18b0, 0x18f5), (0x1900, 0x191e),
   (0x1950, 0x196d), (0x1970, 0x1974), (0x1980, 0x19ab), (0x19b0, 0x19c9), (0x1a00, 0x1a16),
   (0x1a20, 0x1a54), (0x1aa7, 0x1aa7), (0x1b05, 0x1b33), (0x1b45, 0x1b4c), (0x1b83, 0x1ba0),
   (0x1bae, 0x1baf), (0x1bba, 0x1be5), (0x1c00, 0x1c23), (0x1c4d, 0x1c4f), (0x1c5a, 0x1c7d),
   (0x1c80, 0x1c88), (0x1c90, 0x1cba), (0x1cbd, 0x1cbf), (0x1ce9, 0x1cec), (0x1cee, 0x1cf3),
   (0x1cf5, 0x1cf6), (0x1cfa, 0x1cfa), (0x1d00, 0x1dbf), (0x1e00, 0x1f15), (0x1f18, 0x1f1d),
   (0x1f20, 0x1f45), (0x1f48, 0x1f4d), (0x1f50, 0x1f57), (0x1f59, 0x1f59), (0x1f5b, 0x1f5b),
   (0x1f5d, 0x1f5d), (0x1f5f, 0x1f7d), (0x1f80, 0x1fb4), (0x1fb6, 0x1fbc), (0x1fbe, 0x1fbe),
   (0x1fc2, 0x1fc4), (0x1fc6, 0x1fcc), (0x1fd0, 0x1fd3), (0x1fd6, 0x1fdb), (0x1fe0, 0x1fec),
   (0x1ff2, 0x1ff4), (0x1ff6, 0x1ffc), (0x2071, 0x2071), (0x207f, 0x207f), (0x2090, 0x209c),
   (0x2102, 0x2102), (0x2107, 0x2107), (0x210a, 0x2113), (0x2115, 0x2115), (0x2119, 0x211d),
   (0x2124, 0x2124), (0x2126, 0x2126), (0x2128, 0x2128), (0x212a, 0x212d), (0x212f, 0x2139),
   (0x213c, 0x213f), (0x2145, 0x2149), (0x214e, 0x214e), (0x2183, 0x2184), (0x2c00, 0x2ce4),
   (0x2ceb, 0x2cee), (0x2cf2, 0x2cf3), (0x2d00, 0x2d25), (0x2d27, 0x2d27), (0x2d2d, 0x2d2d),
   (0x2d30, 0x2d67), (0x2d6f, 0x2d6f), (0x2d80, 0x2d96), (0x2da0, 0x2da6), (0x2da8, 0x2dae),
   (0x2db0, 0x2db6), (0x2db8, 0x2dbe), (0x2dc0, 0x2dc6), (0x2dc8, 0x2dce), (0x2dd0, 0x2dd6),
   (0x2dd8, 0x2dde), (0x2e2f, 0x2e2f), (0x3005, 0x3006), (0x3031, 0x3035), (0x303b, 0x303c),
   (0x3041, 0x3096), (0x309d, 0x309f), (0x30a1, 0x30fa), (0x30fc, 0x30ff), (0x3105, 0x312f),
   (0x3131, 0x318e), (0x31a0, 0x31bf), (0x31f0, 0x31ff), (0x3400, 0x4dbf), (0x4e00, 0xa48c),
   (0xa4d0, 0xa4fd), (0xa500, 0xa60c), (0xa610, 0xa61f), (0xa62a, 0xa62b), (0xa640, 0xa66e),
   (0xa67f, 0xa69d), (0xa6a0, 0xa6e5), (0xa717, 0xa71f), (0xa722, 0xa788), (0xa78b, 0xa7ca),
   (0xa7d0, 0xa7d1), (0xa7d3, 0xa7d3), (0xa7d5, 0xa7d9), (0xa7f2, 0xa801), (0xa803, 0xa805),
   (0xa807, 0xa80a), (0xa80c, 0xa822), (0xa840, 0xa873), (0xa882, 0xa8b3), (0xa8f2, 0xa8f7),
   (0xa8fb, 0xa8fb), (0xa8fd, 0xa8fe), (0xa90a, 0xa925), (0xa930, 0xa946), (0xa960, 0xa97c),
   (0xa984, 0xa9b2), (0xa9cf, 0xa9cf), (0xa9e0, 0xa9e4), (0xa9e6, 0xa9ef), (0xa9fa, 0xa9fe),
   (0xaa00, 0xaa28), (0xaa40, 0xaa42), (0xaa44, 0xaa4b), (0xaa60, 0xaa76), (0xaa7a, 0xaa7a),
   (0xaa7e, 0xaaaf), (0xaab1, 0xaab1), (0xaab5, 0xaab6), (0xaab9, 0xaabd), (0xaac0, 0xaac0),
   (0xaac2, 0xaac2), (0xaadb, 0xaadd), (0xaae0, 0xaaea), (0xaaf2, 0xaaf4), (0xab01, 0xab06),
   (0xab09, 0xab0e), (0xab11, 0xab16), (0xab20, 0xab26), (0xab28, 0xab2e), (0xab30, 0xab5a),
   (0xab5c, 0xab69), (0xab70, 0xabe2), (0xac00, 0xd7a3), (0xd7b0, 0xd7c6), (0xd7cb, 0xd7fb),
   (0xf900, 0xfa6d), (0xfa70, 0xfad9), (0xfb00, 0xfb06), (0xfb13, 0xfb17), (0xfb1d, 0xfb1d),
   (0xfb1f, 0xfb28), (0xfb2a, 0xfb36), (0xfb38, 0xfb3c), (0xfb3e, 0xfb3e), (0xfb40, 0xfb41),
   (0xfb43, 0xfb44), (0xfb46, 0xfbb1), (0xfbd3, 0xfd3d), (0xfd50, 0xfd8f), (0xfd92, 0xfdc7),
   (0xfdf0, 0xfdfb), (0xfe70, 0xfe74), (0xfe76, 0xfefc), (0xff21, 0xff3a), (0xff41, 0xff5a),
   (0xff66, 0xffbe), (0xffc2, 0xffc7), (0xffca, 0xffcf), (0xffd2, 0xffd7), (0xffda, 0xffdc),
   (0x10000, 0x1000b), (0x1000d, 0x10026), (0x10028, 0x1003a), (0x1003c, 0x1003d), (0x1003f, 0x1004d),
   (0x10050, 0x1005d), (0x10080, 0x100fa), (0x10280, 0x1029c), (0x102a0, 0x102d0), (0x10300, 0x1031f),
   (0x1032d, 0x10340), (0x10342, 0x10349), (0x10350, 0x10375), (0x10380, 0x1039d), (0x103a0, 0x103c3),
   (0x103c8, 0x103cf), (0x10400, 0x1049d), (0x104b0, 0x104d3), (0x104d8, 0x104fb), (0x10500, 0x10527),
   (0x10530, 0x10563), (0x10570, 0x1057a), (0x1057c, 0x1058a), (0x1058c, 0x10592), (0x10594, 0x10595),
   (0x10597, 0x105a1), (0x105a3, 0x105b1), (0x105b3, 0x105b9), (0x105bb, 0x105bc), (0x10600, 0x10736),
   (0x10740, 0x10755), (0x10760, 0x10767), (0x10780, 0x10785), (0x10787, 0x107b0), (0x107b2, 0x107ba),
   (0x10800, 0x10805), (0x10808, 0x10808), (0x1080a, 0x10835), (0x10837, 0x10838), (0x1083c, 0x1083c),
   (0x1083f, 0x10855), (0x10860, 0x10876), (0x10880, 0x1089e), (0x108e0, 0x108f2), (0x108f4, 0x108f5),
   (0x10900, 0x10915), (0x10920, 0x10939), (0x10980, 0x109b7), (0x109be, 0x109bf), (0x10a00, 0x10a00),
   (0x10a10, 0x10a13), (0x10a15, 0x10a17), (0x10a19, 0x10a35), (0x10a60, 0x10a7c), (0x10a80, 0x10a9c),
   (0x10ac0, 0x10ac7), (0x10ac9, 0x10ae4), (0x10b00, 0x10b35), (0x10b40, 0x10b55), (0x10b60, 0x10b72),
   (0x10b80, 0x10b91), (0x10c00, 0x10c48), (0x10c80, 0x10cb2), (0x10cc0, 0x10cf2), (0x10d00, 0x10d23),
   (0x10e80, 0x10ea9), (0x10eb0, 0x10eb1), (0x10f00, 0x10f1c), (0x10f27, 0x10f27), (0x10f30, 0x10f45),
   (0x10f70, 0x10f81), (0x10fb0, 0x10fc4), (0x10fe0, 0x10ff6), (0x11003, 0x11037), (0x11071, 0x11072),
   (0x11075, 0x11075), (0x11083, 0x110af), (0x110d0, 0x110e8), (0x11103, 0x11126), (0x11144, 0x11144),
   (0x11147, 0x11147), (0x11150, 0x11172), (0x11176, 0x11176), (0x11183, 0x111b2), (0x111c1, 0x111c4),
   (0x111da, 0x111da), (0x111dc, 0x111dc), (0x11200, 0x11211), (0x11213, 0x1122b), (0x11280, 0x11286),
   (0x11288, 0x11288), (0x1128a, 0x1128d), (0x1128f, 0x1129d), (0x1129f, 0x112a8), (0x112b0, 0x112de),
   (0x11305, 0x1130c), (0x1130f, 0x11310), (0x11313, 0x11328), (0x1132a, 0x11330), (0x11332, 0x11333),
   (0x11335, 0x11339), (0x1133d, 0x1133d), (0x11350, 0x11350), (0x1135d, 0x11361), (0x11400, 0x11434),
   (0x11447, 0x1144a), (0x1145f, 0x11461), (0x11480, 0x114af), (0x114c4, 0x114c5), (0x114c7, 0x114c7),
   (0x11580, 0x115ae), (0x115d8, 0x115db), (0x11600, 0x1162f), (0x11644, 0x11644), (0x11680, 0x116aa),
   (0x116b8, 0x116b8), (0x11700, 0x1171a), (0x11740, 0x11746), (0x11800, 0x1182b), (0x118a0, 0x118df),
   (0x118ff, 0x11906), (0x11909, 0x11909), (0x1190c, 0x11913), (0x11915, 0x11916), (0x11918, 0x1192f),
   (0x1193f, 0x1193f), (0x11941, 0x11941), (0x119a0, 0x119a7), (0x119aa, 0x119d0), (0x119e1, 0x119e1),
   (0x119e3, 0x119e3), (0x11a00, 0x11a00), (0x11a0b, 0x11a32), (0x11a3a, 0x11a3a), (0x11a50, 0x11a50),
   (0x11a5c, 0x11a89), (0x11a9d, 0x11a9d), (0x11ab0, 0x11af8), (0x11c00, 0x11c08), (0x11c0a, 0x11c2e),
   (0x11c40, 0x11c40), (0x11c72, 0x11c8f), (0x11d00, 0x11d06), (0x11d08, 0x11d09), (0x11d0b, 0x11d30),
   (0x11d46, 0x11d46), (0x11d60, 0x11d65), (0x11d67, 0x11d68), (0x11d6a, 0x11d89), (0x11d98, 0x11d98),
   (0x11ee0, 0x11ef2), (0x11fb0, 0x11fb0), (0x12000, 0x12399), (0x12480, 0x12543), (0x12f90, 0x12ff0),
   (0x13000, 0x1342e), (0x14400, 0x14646), (0x16800, 0x16a38), (0x16a40, 0x16a5e), (0x16a70, 0x16abe),
   (0x16ad0, 0x16aed), (0x16b00, 0x16b2f), (0x16b40, 0x16b43), (0x16b63, 0x16b77), (0x16b7d, 0x16b8f),
   (0x16e40, 0x16e7f), (0x16f00, 0x16f4a), (0x16f50, 0x16f50), (0x16f93, 0x16f9f), (0x16fe0, 0x16fe1),
   (0x16fe3, 0x16fe3), (0x17000, 0x187f7), (0x18800, 0x18cd5), (0x18d00, 0x18d08), (0x1aff0, 0x1aff3),
   (0x1aff5, 0x1affb), (0x1affd, 0x1affe), (0x1b000, 0x1b122), (0x1b150, 0x1b152), (0x1b164, 0x1b167),
   (0x1b170, 0x1b2fb), (0x1bc00, 0x1bc6a), (0x1bc70, 0x1bc7c), (0x1bc80, 0x1bc88), (0x1bc90, 0x1bc99),
   (0x1d400, 0x1d454), (0x1d456, 0x1d49c), (0x1d49e, 0x1d49f), (0x1d4a2, 0x1d4a2), (0x1d4a5, 0x1d4a6),
   (0x1d4a9, 0x1d4ac), (0x1d4ae, 0x1d4b9), (0x1d4bb, 0x1d4bb), (0x1d4bd, 0x1d4c3), (0x1d4c5, 0x1d505),
   (0x1d507, 0x1d50a), (0x1d50d, 0x1d514), (0x1d516, 0x1d51c), (0x1d51e, 0x1d539), (0x1d53b, 0x1d53e),
   (0x1d540, 0x1d544), (0x1d546, 0x1d546), (0x1d54a, 0x1d550), (0x1d552, 0x1d6a5), (0x1d6a8, 0x1d6c0),
   (0x1d6c2, 0x1d6da), (0x1d6dc, 0x1d6fa), (0x1d6fc, 0x1d714), (0x1d716, 0x1d734), (0x1d736, 0x1d74e),
   (0x1d750, 0x1d76e), (0x1d770, 0x1d788), (0x1d78a, 0x1d7a8), (0x1d7aa, 0x1d7c2), (0x1d7c4, 0x1d7cb),
   (0x1df00, 0x1df1e), (0x1e100, 0x1e12c), (0x1e137, 0x1e13d), (0x1e14e, 0x1e14e), (0x1e290, 0x1e2ad),
   (0x1e2c0, 0x1e2eb), (0x1e7e0, 0x1e7e6), (0x1e7e8, 0x1e7eb), (0x1e7ed, 0x1e7ee), (0x1e7f0, 0x1e7fe),
   (0x1e800, 0x1e8c4), (0x1e900, 0x1e943), (0x1e94b, 0x1e94b), (0x1ee00, 0x1ee03), (0x1ee05, 0x1ee1f),
   (0x1ee21, 0x1ee22), (0x1ee24, 0x1ee24), (0x1ee27, 0x1ee27), (0x1ee29, 0x1ee32), (0x1ee34, 0x1ee37),
   (0x1ee39, 0x1ee39), (0x1ee3b, 0x1ee3b), (0x1ee42, 0x1ee42), (0x1ee47, 0x1ee47), (0x1ee49, 0x1ee49),
   (0x1ee4b, 0x1ee4b), (0x1ee4d, 0x1ee4f), (0x1ee51, 0x1ee52), (0x1ee54, 0x1ee54), (0x1ee57, 0x1ee57),
   (0x1ee59, 0x1ee59), (0x1ee5b, 0x1ee5b), (0x1ee5d, 0x1ee5d), (0x1ee5f, 0x1ee5f), (0x1ee61, 0x1ee62),
   (0x1ee64, 0x1ee64), (0x1ee67, 0x1ee6a), (0x1ee6c, 0x1ee72), (0x1ee74, 0x1ee77), (0x1ee79, 0x1ee7c),
   (0x1ee7e, 0x1ee7e), (0x1ee80, 0x1ee89), (0x1ee8b, 0x1ee9b), (0x1eea1, 0x1eea3), (0x1eea5, 0x1eea9),
   (0x1eeab, 0x1eebb), (0x20000, 0x2a6df), (0x2a700, 0x2b738), (0x2b740, 0x2b81d), (0x2b820, 0x2cea1),
   (0x2ceb0, 0x2ebe0), (0x2f800, 0x2fa1d), (0x30000, 0x3134a)]

/-- Python str.isalpha. -/
def pyIsAlpha (c : Char) : Bool :=
  alphaRanges.any (fun r => r.1 ≤ c.toNat && c.toNat ≤ r.2)

/-- Lines 150-166: is_match.  cell is the stripped cell text
str(df.iloc[i, j]).strip().  Rule 1 is exact equality after removing spaces
and line breaks from both sides; rule 2 is substring occurrence whose first
occurrence is not immediately preceded by an alphabetic or CJK character. -/
def isCandidateMatch (cell pattern : String) : Bool :=
  let cc := stripSpaceNL cell
  let pc := stripSpaceNL pattern
  if cc == pc then true
  else
    match strFind cell.data pattern.data with
    | none => false
    | some idx =>
      if 0 < idx then
        let before := cell.data.getD (idx - 1) ' '
        !(pyIsAlpha before || ('\u4e00' ≤ before && before ≤ '\u9fff'))
      else true

/-- Lines 171-182: another field has a strictly longer cleaned alias that is
a substring of the same cleaned cell text. -/
def better_field_match (fieldName cc pc : String) : Bool :=
  keywords.any (fun fp =>
    if fp.1 == fieldName then false
    else fp.2.any (fun op =>
      let opc := stripSpaceNL op
      isSub opc.data cc.data && pc.length < opc.length))

/-- Lines 222-230 of is_header_keyword. -/
def header_patterns : List String :=
  ["产品名称", "基金名称", "名称",
   "产品代码", "基金代码", "代码",
   "单位净值", "基金份额净值", "产品单位净值", "净值",
   "累计单位净值", "基金份额累计净值", "产品累计单位净值", "累计净值",
   "净值日期", "日期",
   "客户名称", "份额", "参与计提份额",
   "计提频率", "业绩报酬", "提取净值", "虚拟净值"]

/-- Lines 217-240: a candidate value is rejected when it contains, or is
contained in, any header pattern or any catalog alias.  (The source computes
value.lower().strip() but never uses it; the comparisons use value as-is.) -/
def is_header_keyword (value : String) : Bool :=
  header_patterns.any (fun k => isSub k.data value.data || isSub value.data k.data)
  || all_keywords.any (fun k => isSub k.data value.data || isSub value.data k.data)

/-- Lines 243-251: strip, then truncate at the first underscore if any. -/
def clean_value (v : String) : String :=
  let v := pyStrip v
  if v.data.contains '_' then String.mk (v.data.takeWhile (fun c => !(c == '_'))) else v

/-- Number of columns, len(df.columns): the DataFrame is rectangular, so the
first row's width is the column count. -/
def ncols (g : Grid) : Nat := (g.headD []).length

/-- str(df.iloc[i, j]): out-of-range reads never occur on rectangular grids;
the default is the blank sentinel. -/
def cellAt (g : Grid) (i j : Nat) : String := (g.getD i []).getD j "nan"

/-- Everything after the first full-width colon: cell_value.split('：', 1)[1]. -/
def afterColon (s : String) : String :=
  String.mk ((s.data.dropWhile (fun c => !(c == '：'))).drop 1)

/-- Lines 186-203: once a label cell is accepted, locate its value.
Layout 1: same-cell "label：value" split at the full-width colon.
Layout 2: the cell at horizontal offset +1, then +2.
The source has no further layout (in particular none that looks below). -/
def tryValueLayouts (g : Grid) (i j : Nat) (cell : String) : Option String :=
  let m1 : Option String :=
    if cell.data.contains '：' then
      let value := pyStrip (afterColon cell)
      if value != "" && value != "nan" && !(is_header_keyword value) then
        some (clean_value value)
      else none
    else none
  match m1 with
  | some v => some v
  | none =>
    let tryOff : Nat → Option String := fun offset =>
      if j + offset < ncols g then
        let value := pyStrip (cellAt g i (j + offset))
        if value != "" && value != "nan" && value != "NaN" && !(is_header_keyword value) then
          some (clean_value value)
        else none
      else none
    match tryOff 1 with
    | some v => some v
    | none => tryOff 2

/-- The pattern loop of lines 150-203 at one cell: patterns are tried in
order; a matching pattern that loses to a longer alias of another field is
skipped (continue); the first surviving match attempts the value layouts and
then the loop breaks whatever the outcome. -/
def tryPatternsAtCell (g : Grid) (fieldName : String) (i j : Nat) : List String → Option String
  | [] => none
  | p :: ps =>
    let cell := pyStrip (cellAt g i j)
    if isCandidateMatch cell p then
      if better_field_match fieldName (stripSpaceNL cell) (stripSpaceNL p) then
        tryPatternsAtCell g fieldName i j ps
      else
        tryValueLayouts g i j cell
    else tryPatternsAtCell g fieldName i j ps

/-- The row-major cell scan of lines 146-209 for one field: the first cell
that yields a value wins. -/
def scanFieldKV (g : Grid) (fieldName : String) (patterns : List String) : Option String :=
  (List.range g.length).findSome? (fun i =>
    (List.range (ncols g)).findSome? (fun j =>
      tryPatternsAtCell g fieldName i j patterns))

/-- The outer field loop of line 145: fields are scanned independently in
catalog order; result[field] is set when a value is found. -/
def kvAssemble (g : Grid) : List (String × List String) → Record → Record
  | [], acc => acc
  | fp :: fps, acc =>
    match scanFieldKV g fp.1 fp.2 with
    | some v => kvAssemble g fps (dset acc fp.1 v)
    | none => kvAssemble g fps acc

/-- Lines 134-214: the key/value path; at least 3 fields are required.  The
body raises no exception, so the source's try/except adds nothing. -/
def extract_keyvalue_format (g : Grid) : Option Record :=
  if 3 ≤ (kvAssemble g keywords []).length then some (kvAssemble g keywords []) else none

/-- Line 67's per-row header cleaning: str(cell).replace('\n', '').replace(' ', ''). -/
def headerMatchCount (row : List String) : Nat :=
  let rowCleaned := row.map stripSpaceNL
  (keywords.filter (fun fp =>
    fp.2.any (fun p =>
      rowCleaned.any (fun cell =>
        isSub p.data cell.data || isSub (stripSpace p).data cell.data)))).length

/-- Lines 61-80: scan the first min(5, nrows) rows, accept the first with at
least 2 distinct matched fields. -/
def findHeaderRow (g : Grid) : Option Nat :=
  (List.range (min 5 g.length)).find? (fun r => decide (2 ≤ headerMatchCount (g.getD r [])))

/-- Line 91's column-name cleaning: str(h).replace('\n', ' ').strip(). -/
def headerLabel (s : String) : String :=
  pyStrip (String.mk (s.data.map (fun c => if c == '\n' then ' ' else c)))

/-- Line 105: a data row is skipped when every cell is blank. -/
def rowAllBlank (row : List String) : Bool :=
  row.all (fun v => pyStrip v == "" || pyStrip v == "nan" || pyStrip v == "NaN")

/-- Lines 114-121: scan the columns for one pattern within one data row.
data_row[col] is a pandas lookup by column label: when the label is
duplicated it yields a Series and the subsequent truthiness test raises,
which the source's try/except turns into a None result for the whole table
path; the outer none models that exception.  some none means the pattern
matched no column with a usable value. -/
def scanColsForPattern (headers row : List String) (p : String) :
    Nat → List String → Option (Option String)
  | _, [] => some none
  | j, col :: cols =>
    let colCleaned := stripSpaceNL col
    if isSub p.data colCleaned.data || isSub (stripSpace p).data colCleaned.data then
      if 1 < headers.count col then none
      else
        let value := row.getD j "nan"
        if pyStrip value != "" && value != "nan" then some (some (clean_value value))
        else scanColsForPattern headers row p (j + 1) cols
    else scanColsForPattern headers row p (j + 1) cols

/-- Lines 112-123: patterns are tried in order; the first pattern that finds
a usable column value wins for the field. -/
def findFieldInRow (headers row : List String) : List String → Option (Option String)
  | [] => some none
  | p :: ps =>
    match scanColsForPattern headers row p 0 headers with
    | none => none
    | some (some v) => some (some v)
    | some none => findFieldInRow headers row ps

/-- Lines 108-123: build one candidate record from a data row, fields in
catalog order. -/
def buildRecordAux (headers row : List String) :
    List (String × List String) → Record → Option Record
  | [], acc => some acc
  | fp :: fps, acc =>
    match findFieldInRow headers row fp.2 with
    | none => none
    | some (some v) => buildRecordAux headers row fps (dset acc fp.1 v)
    | some none => buildRecordAux headers row fps acc

def buildRecord (headers row : List String) : Option Record :=
  buildRecordAux headers row keywords []

/-- Lines 99-126: process every data row in order; blank rows are skipped
and a row is kept only when at least 3 fields were found. -/
def buildRows (headers : List String) : List (List String) → Option (List Record)
  | [] => some []
  | row :: rest =>
    if rowAllBlank row then buildRows headers rest
    else
      match buildRecord headers row with
      | none => none
      | some result =>
        match buildRows headers rest with
        | none => none
        | some rs => if 3 ≤ result.length then some (result :: rs) else some rs

/-- Lines 56-131: the table path (header row found, data rows present,
rows built; empty results are reported as None). -/
def extract_table_format (g : Grid) : Option (List Record) :=
  match findHeaderRow g with
  | none => none
  | some h =>
    if g.length ≤ h + 1 then none
    else if (g.drop (h + 1)).isEmpty then none
    else
      match buildRows ((g.getD h []).map headerLabel) (g.drop (h + 1)) with
      | none => none
      | some results => if results.isEmpty then none else some results

/-- Lines 254-265: a record must carry a non-empty 产品代码 and a non-empty
单位净值 (an empty dict or an empty-string value is falsy). -/
def is_valid_result (r : Record) : Bool :=
  if r.isEmpty then false
  else
    ["产品代码", "单位净值"].all (fun f =>
      match dget r f with
      | some v => v != ""
      | none => false)

/-- Lines 48-51: the fallback branch of the orchestrator. -/
def kvPath (g : Grid) : Option (List Record) :=
  match extract_keyvalue_format g with
  | some r => if !r.isEmpty && is_valid_result r then some [r] else none
  | none => none

/-- Lines 13-53: the extraction orchestrator.  None models the Python
return None failure marker; no branch raises. -/
def extract_fund_data_smart (g : Grid) : Option (List Record) :=
  match extract_table_format g with
  | some results =>
    if results.isEmpty then kvPath g
    else if (results.filter is_valid_result).isEmpty then kvPath g
    else some (results.filter is_valid_result)
  | none => kvPath g

/-! ### Value normalizer: normalize_date (lines 268-291)

datetime.strptime compiles each format directive to a regular expression
(the CPython _strptime table): %Y is four digits, %m is 1[0-2]|0[1-9]|[1-9],
%d is 3[01]|[12]\d|0[1-9]|[1-9], %H is 2[0-3]|[0-1]\d|\d, %M and %S are
[0-5]\d|\d, a space matches one or more whitespace characters, and the whole
string must be consumed.  Alternatives are tried left to right with
backtracking; the resulting match is then validated by the datetime
constructor (year at least 1, day at most the month length), and a
validation failure raises, which the source's bare except turns into trying
the next format. -/

/-- The maximal code-point ranges of the Unicode decimal-digit category Nd:
this is what the regex \d matches in CPython's Unicode mode (so in every
strptime directive written with \d) and what int() and float() accept as a
digit.  Every range is an aligned run of consecutive 0..9 scripts, so the
digit value of a code point is its offset in the range modulo 10. -/
def ndRanges : List (Nat × Nat) :=
  [(0x30, 0x39), (0x660, 0x669), (0x6f0, 0x6f9), (0x7c0, 0x7c9), (0x966, 0x96f),
   (0x9e6, 0x9ef), (0xa66, 0xa6f), (0xae6, 0xaef), (0xb66, 0xb6f), (0xbe6, 0xbef),
   (0xc66, 0xc6f), (0xce6, 0xcef), (0xd66, 0xd6f), (0xde6, 0xdef), (0xe50, 0xe59),
   (0xed0, 0xed9), (0xf20, 0xf29), (0x1040, 0x1049), (0x1090, 0x1099), (0x17e0, 0x17e9),
   (0x1810, 0x1819), (0x1946, 0x194f), (0x19d0, 0x19d9), (0x1a80, 0x1a89), (0x1a90, 0x1a99),
   (0x1b50, 0x1b59), (0x1bb0, 0x1bb9), (0x1c40, 0x1c49), (0x1c50, 0x1c59), (0xa620, 0xa629),
   (0xa8d0, 0xa8d9), (0xa900, 0xa909), (0xa9d0, 0xa9d9), (0xa9f0, 0xa9f9), (0xaa50, 0xaa59),
   (0xabf0, 0xabf9), (0xff10, 0xff19), (0x104a0, 0x104a9), (0x10d30, 0x10d39), (0x11066, 0x1106f),
   (0x110f0, 0x110f9), (0x11136, 0x1113f), (0x111d0, 0x111d9), (0x112f0, 0x112f9), (0x11450, 0x11459),
   (0x114d0, 0x114d9), (0x11650, 0x11659), (0x116c0, 0x116c9), (0x11730, 0x11739), (0x118e0, 0x118e9),
   (0x11950, 0x11959), (0x11c50, 0x11c59), (0x11d50, 0x11d59), (0x11da0, 0x11da9), (0x16a60, 0x16a69),
   (0x16ac0, 0x16ac9), (0x16b50, 0x16b59), (0x1d7ce, 0x1d7ff), (0x1e140, 0x1e149), (0x1e2f0, 0x1e2f9),
   (0x1e950, 0x1e959), (0x1fbf0, 0x1fbf9)]

/-- Python Unicode decimal-digit test (regex \d, int(), float()). -/
def pyIsDigit (c : Char) : Bool :=
  ndRanges.any (fun r => r.1 ≤ c.toNat && c.toNat ≤ r.2)

/-- The decimal value of a Unicode digit, as int() decodes it. -/
def pyDigitVal (c : Char) : Nat :=
  match ndRanges.find? (fun r => r.1 ≤ c.toNat && c.toNat ≤ r.2) with
  | some r => (c.toNat - r.1) % 10
  | none => 0

/-- The %Y directive: exactly four digits. -/
def parseY4 : List Char → Option (Nat × List Char)
  | a :: b :: c :: d :: r =>
    if pyIsDigit a && pyIsDigit b && pyIsDigit c && pyIsDigit d then
      some (pyDigitVal a * 1000 + pyDigitVal b * 100 + pyDigitVal c * 10 + pyDigitVal d, r)
    else none
  | _ => none

/-- The %m alternatives in regex order. -/
def mCands : List Char → List (Nat × List Char) := fun cs =>
  (match cs with
   | '1' :: c :: r => if '0' ≤ c && c ≤ '2' then [(10 + pyDigitVal c, r)] else []
   | _ => []) ++
  (match cs with
   | '0' :: c :: r => if '1' ≤ c && c ≤ '9' then [(pyDigitVal c, r)] else []
   | _ => []) ++
  (match cs with
   | c :: r => if '1' ≤ c && c ≤ '9' then [(pyDigitVal c, r)] else []
   | _ => [])

/-- The %d alternatives in regex order. -/
def dCands : List Char → List (Nat × List Char) := fun cs =>
  (match cs with
   | '3' :: c :: r => if '0' ≤ c && c ≤ '1' then [(30 + pyDigitVal c, r)] else []
   | _ => []) ++
  (match cs with
   | a :: b :: r => if ('1' ≤ a && a ≤ '2') && pyIsDigit b then [(10 * pyDigitVal a + pyDigitVal b, r)] else []
   | _ => []) ++
  (match cs with
   | '0' :: c :: r => if '1' ≤ c && c ≤ '9' then [(pyDigitVal c, r)] else []
   | _ => []) ++
  (match cs with
   | c :: r => if '1' ≤ c && c ≤ '9' then [(pyDigitVal c, r)] else []
   | _ => [])

/-- The %H alternatives in regex order. -/
def hCands : List Char → List (Nat × List Char) := fun cs =>
  (match cs with
   | '2' :: c :: r => if '0' ≤ c && c ≤ '3' then [(20 + pyDigitVal c, r)] else []
   | _ => []) ++
  (match cs with
   | a :: b :: r => if ('0' ≤ a && a ≤ '1') && pyIsDigit b then [(10 * pyDigitVal a + pyDigitVal b, r)] else []
   | _ => []) ++
  (match cs with
   | c :: r => if pyIsDigit c then [(pyDigitVal c, r)] else []
   | _ => [])

/-- The %M and %S alternatives in regex order. -/
def msCands : List Char → List (Nat × List Char) := fun cs =>
  (match cs with
   | a :: b :: r => if ('0' ≤ a && a ≤ '5') && pyIsDigit b then [(10 * pyDigitVal a + pyDigitVal b, r)] else []
   | _ => []) ++
  (match cs with
   | c :: r => if pyIsDigit c then [(pyDigitVal c, r)] else []
   | _ => [])

/-- A literal character of the format. -/
def lit (c : Char) : List Char → Option (List Char)
  | x :: r => if x == c then some r else none
  | [] => none

/-- A whitespace run in the format matches one or more whitespace
characters; nothing that can follow it here matches whitespace, so the
maximal munch is exact. -/
def wsRun : List Char → Option (List Char)
  | c :: r => if pyWS c then some (r.dropWhile pyWS) else none
  | [] => none

def isLeap (y : Nat) : Bool := y % 4 == 0 && (y % 100 != 0 || y % 400 == 0)

def daysInMonth (y m : Nat) : Nat :=
  if m == 2 then (if isLeap y then 29 else 28)
  else if m == 4 || m == 6 || m == 9 || m == 11 then 30
  else 31

/-- The datetime constructor's date validation (month bounds are already
ensured by the regex; the year must be at least MINYEAR = 1). -/
def validDate (y m d : Nat) : Bool :=
  1 ≤ y && 1 ≤ m && m ≤ 12 && 1 ≤ d && d ≤ daysInMonth y m

/-- strptime with format '%Y%m%d'. -/
def strptimeYmd (cs : List Char) : Option (Nat × Nat × Nat) :=
  ((parseY4 cs).bind (fun yr =>
    (mCands yr.2).findSome? (fun mr =>
      (dCands mr.2).findSome? (fun dr =>
        if dr.2.isEmpty then some (yr.1, mr.1, dr.1) else none)))).bind
    (fun t => if validDate t.1 t.2.1 t.2.2 then some t else none)

/-- strptime with format '%Y-%m-%d'. -/
def strptimeYmdDash (cs : List Char) : Option (Nat × Nat × Nat) :=
  ((parseY4 cs).bind (fun yr =>
    (lit '-' yr.2).bind (fun r2 =>
      (mCands r2).findSome? (fun mr =>
        (lit '-' mr.2).bind (fun r4 =>
          (dCands r4).findSome? (fun dr =>
            if dr.2.isEmpty then some (yr.1, mr.1, dr.1) else none)))))).bind
    (fun t => if validDate t.1 t.2.1 t.2.2 then some t else none)

/-- strptime with format '%Y/%m/%d'. -/
def strptimeYmdSlash (cs : List Char) : Option (Nat × Nat × Nat) :=
  ((parseY4 cs).bind (fun yr =>
    (lit '/' yr.2).bind (fun r2 =>
      (mCands r2).findSome? (fun mr =>
        (lit '/' mr.2).bind (fun r4 =>
          (dCands r4).findSome? (fun dr =>
            if dr.2.isEmpty then some (yr.1, mr.1, dr.1) else none)))))).bind
    (fun t => if validDate t.1 t.2.1 t.2.2 then some t else none)

/-- strptime with format '%Y-%m-%d %H:%M:%S'; the time fields are parsed
(and bounded by the regex) but do not affect the rendered date. -/
def strptimeYmdHMS (cs : List Char) : Option (Nat × Nat × Nat) :=
  ((parseY4 cs).bind (fun yr =>
    (lit '-' yr.2).bind (fun r2 =>
      (mCands r2).findSome? (fun mr =>
        (lit '-' mr.2).bind (fun r4 =>
          (dCands r4).findSome? (fun dr =>
            (wsRun dr.2).bind (fun r6 =>
              (hCands r6).findSome? (fun hr =>
                (lit ':' hr.2).bind (fun r8 =>
                  (msCands r8).findSome? (fun mir =>
                    (lit ':' mir.2).bind (fun r10 =>
                      (msCands r10).findSome? (fun ser =>
                        if ser.2.isEmpty then some (yr.1, mr.1, dr.1) else none)))))))))))).bind
    (fun t => if validDate t.1 t.2.1 t.2.2 then some t else none)

/-- dt.strftime('%Y%m%d') with zero padding.  (For years below 1000 the
platform %Y padding varies; every parseable year in this development's
claims has four digits, where all platforms agree.) -/
def padNat (w n : Nat) : String :=
  let s := Nat.repr n
  String.mk (List.replicate (w - s.length) '0' ++ s.data)

def fmtYYYYMMDD (t : Nat × Nat × Nat) : String :=
  String.mk ((padNat 4 t.1).data ++ (padNat 2 t.2.1).data ++ (padNat 2 t.2.2).data)

/-- Lines 268-291: normalize_date.  A falsy (empty) input returns None;
otherwise the input is stripped, the four formats are tried in order, the
first successful parse is rendered as YYYYMMDD, and on total failure the
stripped string is returned. -/
def normalize_date (s : String) : Option String :=
  if s == "" then none
  else
    let t := pyStrip s
    match strptimeYmd t.data with
    | some ymd => some (fmtYYYYMMDD ymd)
    | none =>
      match strptimeYmdDash t.data with
      | some ymd => some (fmtYYYYMMDD ymd)
      | none =>
        match strptimeYmdSlash t.data with
        | some ymd => some (fmtYYYYMMDD ymd)
        | none =>
          match strptimeYmdHMS t.data with
          | some ymd => some (fmtYYYYMMDD ymd)
          | none => some t

/-! ### Value normalizer: convert_to_float (lines 294-299)

Python float(value) accepts an optionally signed decimal literal with
optional exponent (underscores permitted between digits), or inf, infinity
or nan in any case, surrounded by optional whitespace; any other string
(including one with thousands separators) raises ValueError, and a finite
literal beyond the binary64 range raises OverflowError -- both caught by
the source's bare except, which returns the original value.  The model
keeps the exact decimal rational of an accepted finite literal; the final
binary64 rounding is not modelled (no claim depends on it). -/

inductive PyFloat where
  | finite (q : ℚ)
  | inf
  | neginf
  | nan
  deriving DecidableEq, Repr

/-- A Python value as stored in the normalized dict: a float or a string. -/
inductive PyValue where
  | float (f : PyFloat)
  | str (s : String)
  deriving DecidableEq, Repr

def lowerAscii (c : Char) : Char :=
  if 'A' ≤ c && c ≤ 'Z' then Char.ofNat (c.toNat + 32) else c

/-- A run of digits in which single underscores may appear between digits;
returns the digits and the unconsumed remainder. -/
def digitsU : List Char → (List Nat × List Char)
  | [] => ([], [])
  | c :: '_' :: c2 :: cs2 =>
    if pyIsDigit c then
      if pyIsDigit c2 then
        let r := digitsU (c2 :: cs2)
        (pyDigitVal c :: r.1, r.2)
      else ([pyDigitVal c], '_' :: c2 :: cs2)
    else ([], c :: '_' :: c2 :: cs2)
  | c :: cs =>
    if pyIsDigit c then
      let r := digitsU cs
      (pyDigitVal c :: r.1, r.2)
    else ([], c :: cs)

def natOfDigits (ds : List Nat) : Nat :=
  ds.foldl (fun a d => 10 * a + d) 0

/-- The decimal-literal part of the float grammar (after sign): intdigits,
optional fraction, optional exponent; at least one mantissa digit; the whole
remainder must be consumed.  The value is returned as an exact nonnegative
fraction numerator/denominator. -/
def parseFloatNumber (cs : List Char) : Option (Nat × Nat) :=
  let ipr := digitsU cs
  let fpr : Option (List Nat) × List Char :=
    match ipr.2 with
    | '.' :: rest =>
      let fr := digitsU rest
      (some fr.1, fr.2)
    | _ => (none, ipr.2)
  if ipr.1.isEmpty && (fpr.1.getD []).isEmpty then none
  else
    let k := (fpr.1.getD []).length
    let mantNum : Nat := natOfDigits ipr.1 * 10 ^ k + natOfDigits (fpr.1.getD [])
    let mantDen : Nat := 10 ^ k
    match fpr.2 with
    | [] => some (mantNum, mantDen)
    | e :: rest =>
      if e == 'e' || e == 'E' then
        let sr : Bool × List Char :=
          match rest with
          | '+' :: r => (false, r)
          | '-' :: r => (true, r)
          | r => (false, r)
        let er := digitsU sr.2
        if er.1.isEmpty || !er.2.isEmpty then none
        else
          if sr.1 then some (mantNum, mantDen * 10 ^ natOfDigits er.1)
          else some (mantNum * 10 ^ natOfDigits er.1, mantDen)
      else none

/-- The smallest rational whose binary64 rounding is infinite; a finite
literal at or beyond it converts to an infinity (C strtod semantics; string
conversion never raises OverflowError). -/
def floatOverflowNum : Nat := 2 ^ 1024 - 2 ^ 970

/-- Python float(s) on a string: None on ValueError. -/
def pyFloat (s : String) : Option PyFloat :=
  let cs := (pyStrip s).data
  let sr : Bool × List Char :=
    match cs with
    | '+' :: r => (false, r)
    | '-' :: r => (true, r)
    | r => (false, r)
  let low := sr.2.map lowerAscii
  if low == "inf".data || low == "infinity".data then
    some (if sr.1 then PyFloat.neginf else PyFloat.inf)
  else if low == "nan".data then some PyFloat.nan
  else
    match parseFloatNumber sr.2 with
    | none => none
    | some nd =>
      if nd.2 * floatOverflowNum ≤ nd.1 then some (if sr.1 then PyFloat.neginf else PyFloat.inf)
      else some (PyFloat.finite (mkRat (if sr.1 then -(nd.1 : Int) else (nd.1 : Int)) nd.2))

/-- Lines 294-299: convert_to_float returns the float on success and the
original value unchanged on any exception. -/
def convert_to_float (s : String) : PyValue :=
  match pyFloat s with
  | some f => PyValue.float f
  | none => PyValue.str s

/-! ### extract_and_normalize (lines 302-346) -/

/-- The normalized output dict: one optional slot per documented key. -/
structure NormRecord where
  productName : Option String      -- 产品名称
  productCode : Option String      -- 产品代码
  clientName : Option String       -- 客户名称
  participatingShares : Option PyValue  -- 参与计提份额
  navDate : Option String          -- 净值日期
  unitNav : Option PyValue         -- 单位净值
  accumNav : Option PyValue        -- 累计单位净值
  accrualFreq : Option String      -- 计提频率
  perfFeeAmount : Option PyValue   -- 虚拟计提业绩报酬金额
  withdrawalNav : Option PyValue   -- 提取净值
  postAccrualNav : Option PyValue  -- 计提后虚拟净值
  deriving DecidableEq, Repr

/-- convert_to_float(data.get(k)) if data.get(k) else None: the guard is
Python truthiness, so a missing key or empty string yields None. -/
def condFloat (o : Option String) : Option PyValue :=
  match o with
  | some v => if v != "" then some (convert_to_float v) else none
  | none => none

/-- normalize_date(data.get(k)): normalize_date(None) is None via the falsy
guard, and so is normalize_date(''). -/
def normDateOpt (o : Option String) : Option String :=
  match o with
  | some v => normalize_date v
  | none => none

/-- convert_to_float(data.get(k)) with no truthiness guard (the 单位净值
slot): float(None) raises TypeError, so a missing key yields None. -/
def floatOpt (o : Option String) : Option PyValue :=
  match o with
  | some v => some (convert_to_float v)
  | none => none

/-- Lines 331-343: the per-record normalization dict. -/
def normalizeRecord (data : Record) : NormRecord :=
  ⟨dget data "产品名称",
   dget data "产品代码",
   dget data "客户名称",
   condFloat (dget data "参与计提份额"),
   normDateOpt (dget data "净值日期"),
   floatOpt (dget data "单位净值"),
   condFloat (dget data "累计单位净值"),
   dget data "计提频率",
   condFloat (dget data "虚拟计提业绩报酬金额"),
   condFloat (dget data "提取净值"),
   condFloat (dget data "计提后虚拟净值")⟩

/-- Lines 302-346: extract, then normalize each record; a falsy extraction
result returns None. -/
def extract_and_normalize (g : Grid) : Option (List NormRecord) :=
  match extract_fund_data_smart g with
  | none => none
  | some dataList =>
    if dataList.isEmpty then none
    else some (dataList.map normalizeRecord)

/-- The alias list of one canonical field of the catalog. -/
def aliasesOf (f : String) : List String :=
  ((keywords.find? (fun fp => fp.1 == f)).map (fun fp => fp.2)).getD []

/-! ### Concrete grids used in the claim instances -/

/-- The multi-row table of the specification's test properties. -/
def tableGrid : Grid :=
  [["基金代码", "基金名称", "净值日期", "单位净值", "累计单位净值"],
   ["ABC123", "Test Fund", "20250121", "1.5000", "1.5000"],
   ["ABC124", "Test Fund 2", "20250122", "2.0000", "2.0000"]]

/-- A key/value grid whose 净值日期 value sits only directly below its
label cell (1, 0); the other three fields use same-cell colon labels. -/
def belowGrid : Grid :=
  [["产品名称：X", "产品代码：C1", "单位净值：1.0"],
   ["净值日期", "nan", "nan"],
   ["20240101", "nan", "nan"]]

/-- The single-cell caption grid of the header-threshold property. -/
def captionGrid : Grid := [["资产净值报告"]]

/-- The two records the table path extracts from tableGrid, in row order. -/
def tableRec1 : Record :=
  [("产品名称", "Test Fund"), ("产品代码", "ABC123"), ("单位净值", "1.5000"),
   ("累计单位净值", "1.5000"), ("净值日期", "20250121")]

def tableRec2 : Record :=
  [("产品名称", "Test Fund 2"), ("产品代码", "ABC124"), ("单位净值", "2.0000"),
   ("累计单位净值", "2.0000"), ("净值日期", "20250122")]

/-- The single record the key/value path extracts from belowGrid: the
净值日期 label at (1, 0) finds no value even though "20240101" sits
directly below it at (2, 0). -/
def belowRec : Record :=
  [("产品名称", "X"), ("产品代码", "C1"), ("单位净值", "1.0")]

/-- The normalized forms of tableRec1 and tableRec2. -/
def tableNorm1 : NormRecord :=
  ⟨some "Test Fund", some "ABC123", none, none, some "20250121",
   some (PyValue.float (PyFloat.finite (mkRat 3 2))),
   some (PyValue.float (PyFloat.finite (mkRat 3 2))), none, none, none, none⟩

def tableNorm2 : NormRecord :=
  ⟨some "Test Fund 2", some "ABC124", none, none, some "20250122",
   some (PyValue.float (PyFloat.finite (mkRat 2 1))),
   some (PyValue.float (PyFloat.finite (mkRat 2 1))), none, none, none, none⟩

/-! ## Claims about the value normalizer -/

/-- Claim C7 counterexample: normalize_date does not return the original
string unchanged on total parse failure: a padded unparseable input " x"
comes back stripped to "x", and the empty string comes back as None (the
falsy guard), not as the original "". -/
theorem claim_C7_counterexample :
    normalize_date " x" ≠ some " x" ∧ normalize_date " x" = some "x" ∧
    normalize_date "" = none := by
  refine ⟨by decide, by decide, by decide⟩

/-- Claim C7 (amended): normalize_date tries the formats YYYYMMDD,
YYYY-MM-DD, YYYY/MM/DD, YYYY-MM-DD HH:MM:SS in that order and renders the
first successful parse as YYYYMMDD, so "2024/01/30", "20240130" and
"2024-01-30 00:00:00" all normalize to "20240130"; an empty input yields
None, and on any other input on which every format fails the function
returns the input stripped of Unicode whitespace (and never raises): an
unparseable input padded with the ideographic space U+3000 comes back fully
stripped, and a day written with the Unicode decimal digit U+FF11 parses
(the strptime \d matches any Nd digit), so it is not a failure case. -/
theorem claim_C7 :
    normalize_date "2024/01/30" = some "20240130" ∧
    normalize_date "20240130" = some "20240130" ∧
    normalize_date "2024-01-30 00:00:00" = some "20240130" ∧
    normalize_date "" = none ∧
    normalize_date "　x" = some "x" ∧
    normalize_date "2024-01-1１" = some "20240111" ∧
    (∀ s : String, s ≠ "" →
      strptimeYmd (pyStrip s).data = none →
      strptimeYmdDash (pyStrip s).data = none →
      strptimeYmdSlash (pyStrip s).data = none →
      strptimeYmdHMS (pyStrip s).data = none →
      normalize_date s = some (pyStrip s)) := by
  refine ⟨by decide, by decide, by decide, by decide, by decide, by decide, ?_⟩
  intro s hs h1 h2 h3 h4
  unfold normalize_date
  rw [if_neg (by simpa using hs)]
  simp only [h1, h2, h3, h4]

/-- Claim C7 witness: the failure clause of claim_C7 applied at the
concrete unparseable input "hello". -/
theorem claim_C7_witness : normalize_date "hello" = some (pyStrip "hello") :=
  claim_C7.2.2.2.2.2.2 "hello" (by decide) (by decide) (by decide) (by decide) (by decide)

/-- Claim C8 counterexample: Python float() rejects thousands separators,
so convert_to_float("1,234.56") is the original string, not the number
1234.56. -/
theorem claim_C8_counterexample :
    convert_to_float "1,234.56" = PyValue.str "1,234.56" := by decide

/-- Claim C8 (amended): convert_to_float attempts numeric coercion via
Python float(), which does not accept thousands separators: "1234.56"
coerces to the number 1234.56 but "1,234.56" fails and is returned as the
original string; in general every input on which coercion fails is returned
unchanged rather than raising. -/
theorem claim_C8 :
    convert_to_float "1234.56" = PyValue.float (PyFloat.finite (mkRat 123456 100)) ∧
    convert_to_float "1,234.56" = PyValue.str "1,234.56" ∧
    (∀ s : String, pyFloat s = none → convert_to_float s = PyValue.str s) := by
  refine ⟨by decide, by decide, ?_⟩
  intro s h
  unfold convert_to_float
  rw [h]

/-- Claim C8 witness: the failure clause of claim_C8 applied at the
concrete non-numeric input "abc". -/
theorem claim_C8_witness : convert_to_float "abc" = PyValue.str "abc" :=
  claim_C8.2.2 "abc" (by decide)

/-! ## Claims about the key/value candidate matcher -/

/-- Claim C9: a cell (as the scanner sees it, stripped) is a candidate
match for an alias iff either the cell equals the alias after removing
spaces and line breaks, or the alias occurs as a substring of the cell text
and the character immediately preceding the (first) occurrence, when one
exists, is neither alphabetic (in the full Unicode sense of str.isalpha)
nor a CJK ideograph; in particular the cell "客户名称" is not a candidate
match for the bare alias "名称", and neither is "Ｘ名称", whose preceding
fullwidth letter U+FF38 is alphabetic without lying in the CJK range. -/
theorem claim_C9 :
    (∀ cell pattern : String,
      isCandidateMatch cell pattern = true ↔
        (stripSpaceNL cell = stripSpaceNL pattern ∨
         ∃ idx, strFind cell.data pattern.data = some idx ∧
           (idx = 0 ∨
            ¬(pyIsAlpha (cell.data.getD (idx - 1) ' ') = true ∨
              ('一' ≤ cell.data.getD (idx - 1) ' ' ∧
               cell.data.getD (idx - 1) ' ' ≤ '鿿'))))) ∧
    isCandidateMatch "客户名称" "名称" = false ∧
    isCandidateMatch "Ｘ名称" "名称" = false := by
  refine ⟨fun cell pattern => ?_, by decide, by decide⟩
  unfold isCandidateMatch
  by_cases heq : stripSpaceNL cell = stripSpaceNL pattern
  · simp [heq]
  · rw [if_neg (by simpa using heq)]
    cases hf : strFind cell.data pattern.data with
    | none => simp [heq]
    | some idx =>
      by_cases hi : 0 < idx
      · simp only [hi, if_true, heq, false_or]
        constructor
        · intro h
          refine ⟨idx, rfl, Or.inr ?_⟩
          simp only [Bool.not_eq_true', Bool.or_eq_false_iff, Bool.and_eq_false_iff] at h
          rcases h with ⟨ha, hcjk⟩
          intro hcon
          rcases hcon with hcon | hcon
          · rw [ha] at hcon; exact Bool.false_ne_true hcon
          · rcases hcjk with hc | hc
            · exact absurd (decide_eq_true hcon.1) (by rw [hc]; exact Bool.false_ne_true)
            · exact absurd (decide_eq_true hcon.2) (by rw [hc]; exact Bool.false_ne_true)
        · rintro ⟨idx2, hidx2, hcond⟩
          injection hidx2 with hh
          subst hh
          rcases hcond with h0 | hnot
          · omega
          · simp only [Bool.not_eq_true', Bool.or_eq_false_iff, Bool.and_eq_false_iff]
            constructor
            · cases hb : pyIsAlpha (cell.data.getD (idx - 1) ' ') with
              | false => rfl
              | true => exact absurd (Or.inl hb) hnot
            · by_cases hlo : '一' ≤ cell.data.getD (idx - 1) ' '
              · right
                cases hhi : decide (cell.data.getD (idx - 1) ' ' ≤ '鿿') with
                | false => rfl
                | true => exact absurd (Or.inr ⟨hlo, of_decide_eq_true hhi⟩) hnot
              · left
                simpa using hlo
      · have hz : idx = 0 := by omega
        subst hz
        simp [heq]

/-! ## Shared helper lemmas -/

theorem find?_map_keyfix (k k' v : String) (hne : k' ≠ k) :
    ∀ l : Record,
      (l.map (fun p => if p.1 == k then (k, v) else p)).find? (fun p => p.1 == k') =
        l.find? (fun p => p.1 == k') := by
  intro l
  induction l with
  | nil => rfl
  | cons p rest ih =>
    by_cases hp : p.1 = k
    · have h1 : (p.1 == k) = true := by simpa using hp
      have h2 : ((k, v).1 == k') = false := by simpa using Ne.symm hne
      have h3 : (p.1 == k') = false := by rw [hp]; simpa using Ne.symm hne
      simp only [List.map_cons, h1, if_true, List.find?_cons, h2, h3, cond_false]
      exact ih
    · have h1 : (p.1 == k) = false := by simpa using hp
      simp only [List.map_cons, h1, Bool.false_eq_true, if_false, List.find?_cons]
      cases hp' : (p.1 == k') with
      | true => simp [cond_true]
      | false => simpa [cond_false] using ih

theorem dget_append_single_ne (r : Record) (k v k' : String) (hne : k' ≠ k) :
    dget (r ++ [(k, v)]) k' = dget r k' := by
  unfold dget
  induction r with
  | nil =>
    have h2 : ((k, v).1 == k') = false := by simpa using Ne.symm hne
    simp [List.find?_cons, h2]
  | cons p rest ih =>
    simp only [List.cons_append, List.find?_cons]
    cases hp : (p.1 == k') with
    | true => simp [cond_true]
    | false => simpa [cond_false] using ih

theorem dget_dset_ne (r : Record) (k v k' : String) (hne : k' ≠ k) :
    dget (dset r k v) k' = dget r k' := by
  unfold dset
  cases hs : (r.find? (fun p => p.1 == k)).isSome with
  | false =>
    simp only [Bool.false_eq_true, if_false]
    exact dget_append_single_ne r k v k' hne
  | true =>
    simp only [if_true]
    unfold dget
    rw [find?_map_keyfix k k' v hne r]

theorem dget_kvAssemble_none (g : Grid) (k : String) :
    ∀ (fps : List (String × List String)) (acc : Record),
      dget acc k = none → (∀ fp ∈ fps, fp.1 ≠ k) →
      dget (kvAssemble g fps acc) k = none := by
  intro fps
  induction fps with
  | nil => intro acc hacc _; simpa [kvAssemble] using hacc
  | cons fp rest ih =>
    intro acc hacc hk
    have hfp : fp.1 ≠ k := hk fp (by simp)
    have hrest : ∀ q ∈ rest, q.1 ≠ k := fun q hq => hk q (by simp [hq])
    unfold kvAssemble
    cases hscan : scanFieldKV g fp.1 fp.2 with
    | none => exact ih acc hacc hrest
    | some v =>
      refine ih _ ?_ hrest
      rw [dget_dset_ne acc fp.1 v k (Ne.symm hfp)]
      exact hacc

theorem dget_buildRecordAux_none (headers row : List String) (k : String) :
    ∀ (fps : List (String × List String)) (acc : Record) (r : Record),
      dget acc k = none → (∀ fp ∈ fps, fp.1 ≠ k) →
      buildRecordAux headers row fps acc = some r →
      dget r k = none := by
  intro fps
  induction fps with
  | nil =>
    intro acc r hacc _ hb
    simp only [buildRecordAux] at hb
    injection hb with hb
    subst hb
    exact hacc
  | cons fp rest ih =>
    intro acc r hacc hk hb
    have hfp : fp.1 ≠ k := hk fp (by simp)
    have hrest : ∀ q ∈ rest, q.1 ≠ k := fun q hq => hk q (by simp [hq])
    unfold buildRecordAux at hb
    split at hb
    · cases hb
    · exact ih _ r (by rw [dget_dset_ne acc fp.1 _ k (Ne.symm hfp)]; exact hacc) hrest hb
    · exact ih acc r hacc hrest hb

theorem buildRows_mem (headers : List String) :
    ∀ (rows : List (List String)) (rs : List Record), buildRows headers rows = some rs →
      ∀ r ∈ rs, 3 ≤ r.length ∧ ∃ row, buildRecord headers row = some r := by
  intro rows
  induction rows with
  | nil =>
    intro rs h r hr
    simp only [buildRows] at h
    injection h with h
    subst h
    simp at hr
  | cons row rest ih =>
    intro rs h r hr
    unfold buildRows at h
    split at h
    · exact ih rs h r hr
    · split at h
      · cases h
      · rename_i result hrec
        split at h
        · cases h
        · rename_i rs2 hrest
          split at h
          · rename_i h3
            injection h with h
            subst h
            rcases List.mem_cons.mp hr with hr | hr
            · subst hr; exact ⟨h3, row, hrec⟩
            · exact ih rs2 hrest r hr
          · injection h with h
            subst h
            exact ih rs2 hrest r hr

theorem ett_mem (g : Grid) (rs : List Record) (h : extract_table_format g = some rs)
    (r : Record) (hr : r ∈ rs) :
    3 ≤ r.length ∧ ∃ headers row, buildRecord headers row = some r := by
  unfold extract_table_format at h
  split at h
  · cases h
  · split at h
    · cases h
    · split at h
      · cases h
      · split at h
        · cases h
        · rename_i hidx hf results hbr
          split at h
          · cases h
          · injection h with h
            subst h
            have := buildRows_mem _ _ _ hbr r hr
            exact ⟨this.1, _, this.2⟩

theorem buildRows_sublist (headers : List String) :
    ∀ (rows : List (List String)) (rs : List Record), buildRows headers rows = some rs →
      rs.Sublist (rows.filterMap (fun row => buildRecord headers row)) := by
  intro rows
  induction rows with
  | nil =>
    intro rs h
    simp only [buildRows] at h
    injection h with h
    subst h
    simp
  | cons row rest ih =>
    intro rs h
    unfold buildRows at h
    split at h
    · have hsub := ih rs h
      simp only [List.filterMap_cons]
      cases hb : buildRecord headers row with
      | none => exact hsub
      | some result => exact hsub.cons result
    · split at h
      · cases h
      · rename_i result hrec
        split at h
        · cases h
        · rename_i rs2 hrest
          simp only [List.filterMap_cons, hrec]
          split at h
          · injection h with h
            subst h
            exact (ih rs2 hrest).cons₂ result
          · injection h with h
            subst h
            exact (ih rs2 hrest).cons result

theorem ett_shape (g : Grid) (rs : List Record) (h : extract_table_format g = some rs) :
    ∃ hidx, findHeaderRow g = some hidx ∧
      buildRows ((g.getD hidx []).map headerLabel) (g.drop (hidx + 1)) = some rs := by
  unfold extract_table_format at h
  split at h
  · cases h
  · rename_i hidx hf
    split at h
    · cases h
    · split at h
      · cases h
      · split at h
        · cases h
        · rename_i results hbr
          split at h
          · cases h
          · injection h with h
            subst h
            exact ⟨hidx, hf, hbr⟩

theorem kvPath_some (g : Grid) (rs : List Record) (h : kvPath g = some rs) :
    ∃ r, extract_keyvalue_format g = some r ∧ is_valid_result r = true ∧ rs = [r] := by
  unfold kvPath at h
  split at h
  · rename_i r0 heq
    split at h
    · rename_i hc
      injection h with h
      subst h
      have hc2 : is_valid_result r0 = true := by
        simp only [Bool.and_eq_true] at hc
        exact hc.2
      exact ⟨r0, heq, hc2, rfl⟩
    · cases h
  · cases h

theorem kvPath_none (g : Grid)
    (h : ∀ r : Record, extract_keyvalue_format g = some r → is_valid_result r = false) :
    kvPath g = none := by
  unfold kvPath
  cases hkv : extract_keyvalue_format g with
  | none => rfl
  | some r0 =>
    have hv := h r0 hkv
    simp [hv]

theorem kv_record_shape (g : Grid) (r : Record) (h : extract_keyvalue_format g = some r) :
    r = kvAssemble g keywords [] ∧ 3 ≤ r.length := by
  unfold extract_keyvalue_format at h
  split at h
  · rename_i h3
    injection h with h
    subst h
    exact ⟨rfl, h3⟩
  · cases h

theorem efds_cases (g : Grid) (rs : List Record) (h : extract_fund_data_smart g = some rs) :
    (∃ results, extract_table_format g = some results ∧
       rs = results.filter is_valid_result ∧ rs ≠ []) ∨
    kvPath g = some rs := by
  unfold extract_fund_data_smart at h
  split at h
  · rename_i results het
    split at h
    · exact Or.inr h
    · split at h
      · exact Or.inr h
      · rename_i hv
        injection h with h
        subst h
        exact Or.inl ⟨results, het, rfl, by simpa [List.isEmpty_iff] using hv⟩
  · exact Or.inr h

theorem efds_mem_valid (g : Grid) (rs : List Record) (h : extract_fund_data_smart g = some rs)
    (r : Record) (hr : r ∈ rs) : is_valid_result r = true := by
  rcases efds_cases g rs h with ⟨results, _, hfil, _⟩ | hkv
  · subst hfil
    exact List.of_mem_filter hr
  · rcases kvPath_some g rs hkv with ⟨r0, _, hval, hrs⟩
    subst hrs
    rcases List.mem_singleton.mp hr with rfl
    exact hval

theorem is_valid_spec (r : Record) (h : is_valid_result r = true) :
    (∃ c, dget r "产品代码" = some c ∧ c ≠ "") ∧
    (∃ u, dget r "单位净值" = some u ∧ u ≠ "") := by
  unfold is_valid_result at h
  split at h
  · cases h
  · simp only [List.all_cons, List.all_nil, Bool.and_true, Bool.and_eq_true] at h
    obtain ⟨h1, h2⟩ := h
    constructor
    · cases hd : dget r "产品代码" with
      | none => rw [hd] at h1; cases h1
      | some v =>
        rw [hd] at h1
        exact ⟨v, rfl, by simpa using h1⟩
    · cases hd : dget r "单位净值" with
      | none => rw [hd] at h2; cases h2
      | some v =>
        rw [hd] at h2
        exact ⟨v, rfl, by simpa using h2⟩

/-- Every record the engine emits carries only catalog field names as keys. -/
theorem efds_dget_none (g : Grid) (rs : List Record) (h : extract_fund_data_smart g = some rs)
    (r : Record) (hr : r ∈ rs) (k : String) (hk : ∀ fp ∈ keywords, fp.1 ≠ k) :
    dget r k = none := by
  rcases efds_cases g rs h with ⟨results, het, hfil, _⟩ | hkv
  · subst hfil
    have hrm := List.mem_of_mem_filter hr
    rcases ett_mem g results het r hrm with ⟨_, headers, row, hbr⟩
    exact dget_buildRecordAux_none headers row k keywords [] r rfl hk hbr
  · rcases kvPath_some g rs hkv with ⟨r0, hkvf, _, hrs⟩
    subst hrs
    rcases List.mem_singleton.mp hr with rfl
    rcases kv_record_shape g r hkvf with ⟨hshape, _⟩
    rw [hshape]
    exact dget_kvAssemble_none g k keywords [] rfl hk

/-! ## Claims about the key/value tie-break and value layouts -/

/-- Claim C1: in the key/value scan, a field's matching alias at a cell is
discarded whenever some other field has a strictly longer cleaned alias
that is a substring of the same normalized cell text -- the pattern loop
proceeds exactly as if that alias were absent; and on a grid whose cell is
"累计单位净值：1.23" the 单位净值 field (whose aliases include 净值)
binds nothing while the 累计单位净值 field binds "1.23". -/
theorem claim_C1 :
    (∀ (g : Grid) (fieldName : String) (i j : Nat) (p : String) (ps : List String),
      isCandidateMatch (pyStrip (cellAt g i j)) p = true →
      (∃ fp ∈ keywords, fp.1 ≠ fieldName ∧ ∃ a ∈ fp.2,
        isSub (stripSpaceNL a).data (stripSpaceNL (pyStrip (cellAt g i j))).data = true ∧
        (stripSpaceNL p).length < (stripSpaceNL a).length) →
      tryPatternsAtCell g fieldName i j (p :: ps) = tryPatternsAtCell g fieldName i j ps) ∧
    scanFieldKV [["累计单位净值：1.23"]] "单位净值" (aliasesOf "单位净值") = none ∧
    scanFieldKV [["累计单位净值：1.23"]] "累计单位净值" (aliasesOf "累计单位净值") =
      some "1.23" := by
  refine ⟨?_, by decide, by decide⟩
  intro g fieldName i j p ps hmatch hex
  have hb : better_field_match fieldName (stripSpaceNL (pyStrip (cellAt g i j)))
      (stripSpaceNL p) = true := by
    unfold better_field_match
    rw [List.any_eq_true]
    rcases hex with ⟨fp, hfpmem, hne, a, hamem, hsub, hlen⟩
    refine ⟨fp, hfpmem, ?_⟩
    rw [if_neg (by simpa using hne)]
    rw [List.any_eq_true]
    exact ⟨a, hamem, by simp [hsub, hlen]⟩
  simp only [tryPatternsAtCell, hmatch, hb, if_true]

/-- Claim C1 witness: the tie-break applied at the cell "净值日期" for the
单位净值 field matching via its alias "净值" (the 净值日期 field owns the
strictly longer substring alias "净值日期"). -/
theorem claim_C1_witness :
    tryPatternsAtCell [["净值日期", "x"]] "单位净值" 0 0 ["净值"] =
      tryPatternsAtCell [["净值日期", "x"]] "单位净值" 0 0 [] :=
  claim_C1.1 [["净值日期", "x"]] "单位净值" 0 0 "净值" []
    (by decide)
    ⟨("净值日期", ["净值日期", "日期", "估值基准日", "NAVAsOfDate"]), by decide,
      by decide, "净值日期", by decide, by decide, by decide⟩

/-- Claim C4 counterexample: belowGrid places the 净值日期 value "20240101"
only directly below its label cell "净值日期", yet the extracted record
carries no 净值日期 at all -- there is no below-offset layout in the
source. -/
theorem claim_C4_counterexample :
    cellAt belowGrid 1 0 = "净值日期" ∧
    cellAt belowGrid 2 0 = "20240101" ∧
    extract_fund_data_smart belowGrid = some [belowRec] ∧
    dget belowRec "净值日期" = none := by
  refine ⟨by decide, by decide, by decide, by decide⟩

/-- Claim C4 (amended): once a field's label cell is accepted, the value is
located by exactly two layouts tried in order with first success winning:
(1) same-cell split at a full-width colon taking the remainder, (2) the
cell at horizontal offset +1 then +2; the lookup reads only the label's own
row (never the cell below), so a grid whose only occurrence of a value
places it directly below its label does not yield that field's value. -/
theorem claim_C4 :
    (∀ (g : Grid) (i j : Nat) (cell : String),
      cell.data.contains '：' = true →
      pyStrip (afterColon cell) ≠ "" →
      pyStrip (afterColon cell) ≠ "nan" →
      is_header_keyword (pyStrip (afterColon cell)) = false →
      tryValueLayouts g i j cell = some (clean_value (pyStrip (afterColon cell)))) ∧
    (∀ (g g' : Grid) (i j : Nat) (cell : String),
      ncols g = ncols g' → g.getD i [] = g'.getD i [] →
      tryValueLayouts g i j cell = tryValueLayouts g' i j cell) ∧
    scanFieldKV [["产品代码", "T05851"]] "产品代码" (aliasesOf "产品代码") = some "T05851" ∧
    scanFieldKV [["产品代码", "nan", "T05851"]] "产品代码" (aliasesOf "产品代码") =
      some "T05851" ∧
    scanFieldKV [["产品代码：T05851", "OTHER"]] "产品代码" (aliasesOf "产品代码") =
      some "T05851" := by
  refine ⟨?_, ?_, by decide, by decide, by decide⟩
  · intro g i j cell hc h1 h2 h3
    unfold tryValueLayouts
    have hb1 : (pyStrip (afterColon cell) != "") = true := by simpa using h1
    have hb2 : (pyStrip (afterColon cell) != "nan") = true := by simpa using h2
    simp only [hc, if_true, hb1, hb2, h3, Bool.not_false, Bool.and_true, Bool.true_and]
  · intro g g' i j cell hcols hrow
    unfold tryValueLayouts cellAt
    rw [hcols, hrow]

/-- Claim C4 witness: the colon layout of claim_C4 applied at the concrete
label cell "产品代码：T05851". -/
theorem claim_C4_witness :
    tryValueLayouts [["产品代码：T05851"]] 0 0 "产品代码：T05851" =
      some (clean_value (pyStrip (afterColon "产品代码：T05851"))) :=
  claim_C4.1 [["产品代码：T05851"]] 0 0 "产品代码：T05851"
    (by decide) (by decide) (by decide) (by decide)

/-! ## Claims about the table detector -/

/-- Claim C5: header detection scans only the first 5 rows (fewer on a
shorter grid) and a row is accepted only when at least 2 distinct canonical
fields have an alias occurring as a substring of some space-and-linebreak
stripped cell of that row; the single-cell grid ["资产净值报告"] is never a
header row, the table path fails, and extraction falls back to (and here
also fails in) the key/value scan. -/
theorem claim_C5 :
    (∀ (g : Grid) (h : Nat), findHeaderRow g = some h →
      h < 5 ∧ h < g.length ∧ 2 ≤ headerMatchCount (g.getD h [])) ∧
    findHeaderRow captionGrid = none ∧
    extract_table_format captionGrid = none ∧
    extract_fund_data_smart captionGrid = kvPath captionGrid ∧
    extract_keyvalue_format captionGrid = none := by
  refine ⟨?_, by decide, by decide, by decide, by decide⟩
  intro g h hfind
  unfold findHeaderRow at hfind
  have hmem := List.mem_of_find?_eq_some hfind
  have hpred := List.find?_some hfind
  rw [List.mem_range] at hmem
  exact ⟨lt_of_lt_of_le hmem (min_le_left _ _),
         lt_of_lt_of_le hmem (min_le_right _ _),
         of_decide_eq_true hpred⟩

/-- Claim C5 witness: the header bound of claim_C5 applied at tableGrid,
whose header row is found at index 0. -/
theorem claim_C5_witness :
    0 < 5 ∧ 0 < tableGrid.length ∧ 2 ≤ headerMatchCount (tableGrid.getD 0 []) :=
  claim_C5.1 tableGrid 0 (by decide)

/-- Claim C6: on the header-plus-two-data-rows grid, extraction returns
exactly the two records with the corresponding field values in the grid's
row order; in general every record the table path emits carries at least 3
of the 5 core fields, and the emitted records are an order-preserving
subsequence of the records built from the data rows below the header, so
row order is preserved. -/
theorem claim_C6 :
    extract_fund_data_smart tableGrid = some [tableRec1, tableRec2] ∧
    (∀ (g : Grid) (rs : List Record), extract_table_format g = some rs →
      ∀ r ∈ rs, 3 ≤ r.length) ∧
    (∀ (g : Grid) (rs : List Record), extract_table_format g = some rs →
      ∃ h, findHeaderRow g = some h ∧
        rs.Sublist ((g.drop (h + 1)).filterMap
          (fun row => buildRecord ((g.getD h []).map headerLabel) row))) := by
  refine ⟨by decide, ?_, ?_⟩
  · intro g rs h r hr
    exact (ett_mem g rs h r hr).1
  · intro g rs h
    rcases ett_shape g rs h with ⟨hidx, hf, hbr⟩
    exact ⟨hidx, hf, buildRows_sublist _ _ _ hbr⟩

/-- Claim C6 witness: the coverage bound of claim_C6 applied to tableGrid's
first extracted record. -/
theorem claim_C6_witness : 3 ≤ tableRec1.length :=
  claim_C6.2.1 tableGrid [tableRec1, tableRec2] (by decide) tableRec1 (by decide)

/-! ## Claims about the orchestrator and validator -/

/-- Claim C2: every record the engine outputs, on either path, carries a
non-blank 产品代码 and a non-blank 单位净值; candidates failing this are
dropped and never appear. -/
theorem claim_C2 :
    ∀ (g : Grid) (rs : List Record), extract_fund_data_smart g = some rs →
      ∀ r ∈ rs,
        (∃ c, dget r "产品代码" = some c ∧ c ≠ "") ∧
        (∃ u, dget r "单位净值" = some u ∧ u ≠ "") :=
  fun g rs h r hr => is_valid_spec r (efds_mem_valid g rs h r hr)

/-- Claim C2 witness: claim_C2 applied at belowGrid and its single
extracted record. -/
theorem claim_C2_witness :
    (∃ c, dget belowRec "产品代码" = some c ∧ c ≠ "") ∧
    (∃ u, dget belowRec "单位净值" = some u ∧ u ≠ "") :=
  claim_C2 belowGrid [belowRec] (by decide) belowRec (by decide)

/-- Claim C3 counterexample: on a grid where neither path yields a valid
record the orchestrator returns the failure marker None -- not an empty
sequence of records. -/
theorem claim_C3_counterexample :
    extract_fund_data_smart [["x"]] = none ∧
    extract_fund_data_smart [["x"]] ≠ some ([] : List Record) := by
  exact ⟨by decide, by decide⟩

/-- Claim C3 (amended): the orchestrator first runs the table path; if it
yields at least one validated record, exactly those records are returned
and the key/value result is never blended in; otherwise the key/value path
yields at most one record, returned when valid; when neither path yields a
valid record the orchestrator returns the failure marker None (no records)
rather than an empty list -- and, being a total function, it never
raises. -/
theorem claim_C3 :
    ∀ g : Grid,
      (∀ rs : List Record, extract_table_format g = some rs →
        rs.filter is_valid_result ≠ [] →
        extract_fund_data_smart g = some (rs.filter is_valid_result)) ∧
      ((∀ rs : List Record, extract_table_format g = some rs →
          rs.filter is_valid_result = []) →
        ∀ rs : List Record, extract_fund_data_smart g = some rs →
          ∃ r, extract_keyvalue_format g = some r ∧ is_valid_result r = true ∧ rs = [r]) ∧
      ((∀ rs : List Record, extract_table_format g = some rs →
          rs.filter is_valid_result = []) →
        (∀ r : Record, extract_keyvalue_format g = some r → is_valid_result r = false) →
        extract_fund_data_smart g = none) := by
  intro g
  refine ⟨?_, ?_, ?_⟩
  · intro rs h hne
    unfold extract_fund_data_smart
    simp only [h]
    have h2 : (rs.filter is_valid_result).isEmpty = false := by
      cases hf : rs.filter is_valid_result with
      | nil => exact absurd hf hne
      | cons a l => rfl
    have h1 : rs.isEmpty = false := by
      cases rs with
      | nil => simp [List.filter] at h2
      | cons a l => rfl
    simp only [h1, h2, Bool.false_eq_true, if_false]
  · intro htab rs h
    rcases efds_cases g rs h with ⟨results, het, hfil, hne⟩ | hkv
    · exact absurd (hfil.trans (htab results het)) hne
    · exact kvPath_some g rs hkv
  · intro htab hkv
    have hkvnone := kvPath_none g hkv
    unfold extract_fund_data_smart
    cases het : extract_table_format g with
    | none => exact hkvnone
    | some results =>
      have hfe : results.filter is_valid_result = [] := htab results het
      simp [hfe, hkvnone]

/-- Claim C3 witness: the table-path clause of claim_C3 applied at
tableGrid. -/
theorem claim_C3_witness :
    extract_fund_data_smart tableGrid =
      some (([tableRec1, tableRec2] : List Record).filter is_valid_result) :=
  (claim_C3 tableGrid).1 [tableRec1, tableRec2] (by decide) (by decide)

/-- Claim C10: in every record extract_and_normalize returns, the six
ancillary slots 客户名称, 参与计提份额, 计提频率, 虚拟计提业绩报酬金额,
提取净值 and 计提后虚拟净值 are None, because the keyword catalog driving
both paths has no aliases for them. -/
theorem claim_C10 :
    ∀ (g : Grid) (out : List NormRecord), extract_and_normalize g = some out →
      ∀ nr ∈ out,
        nr.clientName = none ∧ nr.participatingShares = none ∧ nr.accrualFreq = none ∧
        nr.perfFeeAmount = none ∧ nr.withdrawalNav = none ∧ nr.postAccrualNav = none := by
  intro g out h nr hnr
  unfold extract_and_normalize at h
  split at h
  · cases h
  · rename_i dataList hd
    split at h
    · cases h
    · injection h with h
      subst h
      rcases List.mem_map.mp hnr with ⟨data, hdata, hmap⟩
      subst hmap
      have hnone : ∀ k : String, (∀ fp ∈ keywords, fp.1 ≠ k) → dget data k = none :=
        fun k hk => efds_dget_none g dataList hd data hdata k hk
      have h1 := hnone "客户名称" (by decide)
      have h2 := hnone "参与计提份额" (by decide)
      have h3 := hnone "计提频率" (by decide)
      have h4 := hnone "虚拟计提业绩报酬金额" (by decide)
      have h5 := hnone "提取净值" (by decide)
      have h6 := hnone "计提后虚拟净值" (by decide)
      unfold normalizeRecord
      simp [h1, h2, h3, h4, h5, h6, condFloat]

/-- Claim C10 witness: claim_C10 applied at tableGrid and the first of its
two normalized records. -/
theorem claim_C10_witness :
    tableNorm1.clientName = none ∧ tableNorm1.participatingShares = none ∧
    tableNorm1.accrualFreq = none ∧ tableNorm1.perfFeeAmount = none ∧
    tableNorm1.withdrawalNav = none ∧ tableNorm1.postAccrualNav = none :=
  claim_C10 tableGrid [tableNorm1, tableNorm2] (by decide) tableNorm1 (by decide)

end SmartExtractor
